import Mathlib

/-!
Verification development for the CfgSync plugin (CfgSyncPlugin.ts) of the
ApplicationInsights JS SDK.  The file gives a shallow embedding of the
plugin's state machine: the latched configuration fields, the transport
selection and both transport strategies, the fetch-completion callback, the
polling timer, the shared-bus event handler and the selective merge of
configuration trees.  Theorems at the end check the specification's claims
against this embedding.
-/

namespace CfgSync

/-- JSON-like values: the shape of configuration documents and of the
payloads travelling on the shared event bus. -/
inductive JsValue where
  | null : JsValue
  | bool (b : Bool) : JsValue
  | num (n : Int) : JsValue
  | str (s : String) : JsValue
  | obj (entries : List (String × JsValue)) : JsValue

/-- JavaScript truthiness of a value (objects are always truthy). -/
def JsValue.truthy : JsValue → Bool
  | .null => false
  | .bool b => b
  | .num n => n != 0
  | .str s => s != ""
  | .obj _ => true

/-- Truthiness of a possibly-absent value (undefined is falsy). -/
def optTruthy : Option JsValue → Bool
  | some v => v.truthy
  | none => false

/-- Truthiness of a possibly-absent string (undefined and empty are falsy). -/
def strTruthy : Option String → Bool
  | some s => s != ""
  | none => false

/-- Truthiness of a possibly-absent number (undefined and zero are falsy). -/
def natTruthy : Option Nat → Bool
  | some n => n != 0
  | none => false

/-- Property lookup on an object's entry list (first binding wins). -/
def lookupField : List (String × JsValue) → String → Option JsValue
  | [], _ => none
  | (k, v) :: rest, key => if k = key then some v else lookupField rest key

/-- JavaScript property access on a possibly-absent value: a missing or
non-object receiver yields undefined. -/
def jsField : Option JsValue → String → Option JsValue
  | some (.obj es), k => lookupField es k
  | _, _ => none

/-- Follow a path of keys down a value. -/
def lookupPath : JsValue → List String → Option JsValue
  | v, [] => some v
  | .obj es, k :: ks =>
    match lookupField es k with
    | some v => lookupPath v ks
    | none => none
  | _, _ :: _ => none

/-- The non-override rule set: a mapping from configuration key name to a
boolean protection mark (spec section 3, NonOverrideRuleSet). -/
def Rules := List (String × Bool)

/-- Whether the rule set marks a key as protected. -/
def isProtected : Rules → String → Bool
  | [], _ => false
  | (k, b) :: rest, key => if k = key then b else isProtected rest key

/-- Modelled from the spec: the selective-merge helper
replaceByNonOverrideCfg of CfgSyncHelperFuncs.ts is not among the provided
sources, so its recursion is taken from spec section 4.2: at each visited
object, keys marked protected by the rules are omitted entirely; while the
fuel (the remaining number of levels below the maximum) is positive, nested
values are recursed into with one unit of fuel less; once the fuel is
exhausted the kept values are copied verbatim.  A node visited with fuel f
sits at level maxLevel - f, so the top call of the engine (level 1,
maxLevel 5) uses fuel 4 and filtering happens at levels 1 through 5. -/
def sanitizeFuel (r : Rules) : Nat → JsValue → JsValue
  | 0, .obj entries =>
    .obj (entries.filter fun kv => !(isProtected r kv.1))
  | f + 1, .obj entries =>
    .obj ((entries.filter fun kv => !(isProtected r kv.1)).map
      fun kv => (kv.1, sanitizeFuel r f kv.2))
  | _, v => v

/-- Modelled from the spec: top entry point of the selective merge
(sanitize of spec section 4.2).  Returns null when the rules or the
config are absent; an internal error is swallowed into null as well. -/
def replaceByNonOverrideCfg (cfg : Option JsValue) (rules : Option Rules)
    (level maxLevel : Nat) : Option JsValue :=
  match cfg, rules with
  | some c, some r => some (sanitizeFuel r (maxLevel - level) c)
  | _, _ => none

/-- No key of the top n levels of the value is marked protected. -/
def protectedFreeUpto (r : Rules) : Nat → JsValue → Bool
  | 0, _ => true
  | n + 1, .obj entries =>
    entries.all fun kv => !(isProtected r kv.1) && protectedFreeUpto r n kv.2
  | _ + 1, _ => true

/-- Outcome of calling a host- or user-supplied function: it either returns
a boolean or raises an exception. -/
inductive FnRes where
  | ret (b : Bool) : FnRes
  | thrown : FnRes

/-- Behaviour of a user-supplied sync override: receives the current main
config and the custom details, returns a boolean or raises. -/
def SyncFn := Option JsValue → Option JsValue → FnRes

/-- Which concrete transport the engine selected. -/
inductive FetchFnKind where
  | overrideFn : FetchFnKind
  | fetchImpl : FetchFnKind
  | xhrImpl : FetchFnKind

/-- Host capabilities and host-provided primitives: a global object, the
capability checks of the two transports, the JSON facility (absent when
getJSON yields nothing, otherwise a parse function where none models a
parse exception), and the bus emission primitive sendCustomEvent. -/
structure Host where
  hasGlobal : Bool
  fetchSupported : Bool
  xhrSupported : Bool
  json : Option (String → Option JsValue)
  sendCustomEvent : Option String → Option JsValue → Option JsValue → FnRes

/-- Observable side effects of an operation: an event emitted on the shared
bus, or a transport request dispatched. -/
inductive Eff where
  | emitEvent (name : Option String) (cfg : Option JsValue)
      (details : Option JsValue) : Eff
  | fetchDispatch (url : Option String) (auto : Option Bool) : Eff

/-- The closure state of CfgSyncPlugin: every field corresponds to one of
the let-bound variables of the constructor; JavaScript null is modelled as
none.  listenerOn records the event name the bus listener is currently
subscribed under (none when no listener is attached), timeoutHandle whether
a poll timer is armed. -/
structure PluginState where
  mainConfig : Option JsValue
  isAutoSync : Option Bool
  evtName : Option String
  cfgUrl : Option String
  receiveChanges : Option Bool
  nonOverrideConfigs : Option Rules
  timeoutHandle : Bool
  fetchSpan : Option Nat
  listenerOn : Option String
  overrideSyncFn : Option SyncFn
  overrideFetchFn : Option Unit
  onCfgChangeReceive : Bool
  fetchFn : Option FetchFnKind

/-- The extension configuration as resolved by getExtCfg against the
default table (spec section 6). -/
structure ExtConfig where
  disableAutoSync : Bool
  customEvtName : Option String
  cfgUrl : Option String
  receiveChanges : Bool
  overrideSyncFn : Option SyncFn
  overrideFetchFn : Option Unit
  onCfgChangeReceive : Bool
  scheduleFetchTimeout : Option Nat
  nonOverrideConfigs : Option Rules

/-- The state produced by initDefaults: every field nulled, no timer, no
listener. -/
def initDefaults : PluginState :=
  { mainConfig := none
    isAutoSync := none
    evtName := none
    cfgUrl := none
    receiveChanges := none
    nonOverrideConfigs := none
    timeoutHandle := false
    fetchSpan := none
    listenerOn := none
    overrideSyncFn := none
    overrideFetchFn := none
    onCfgChangeReceive := false
    fetchFn := none }

/-- The eventOff helper: when a global object exists, detach this
instance's listener (unsubscription is scoped by the instance namespace);
exceptions are swallowed. -/
def eventOff (host : Host) (s : PluginState) : PluginState :=
  if host.hasGlobal then { s with listenerOn := none } else s

/-- The addEventListener helper: only in receive mode and only when a
global object exists does it subscribe the handler under the current event
name; exceptions around the subscription are swallowed. -/
def addEventListener (host : Host) (s : PluginState) : PluginState :=
  if s.receiveChanges = some true then
    if host.hasGlobal then { s with listenerOn := s.evtName } else s
  else s

/-- The sendCfgsyncEvents helper: a configured sync override is called with
the main config and the custom details and its result returned as is (no
bus emission); otherwise sendCustomEvent emits under the current event
name; an exception anywhere yields false. -/
def sendCfgsyncEvents (host : Host) (s : PluginState)
    (customDetails : Option JsValue) : Bool × List Eff :=
  match s.overrideSyncFn with
  | some f =>
    match f s.mainConfig customDetails with
    | .ret b => (b, [])
    | .thrown => (false, [])
  | none =>
    match host.sendCustomEvent s.evtName s.mainConfig customDetails with
    | .ret b => (b, [.emitEvent s.evtName s.mainConfig customDetails])
    | .thrown => (false, [])

/-- The private setCfg path: a truthy config replaces the main config; only
a truthy isAutoSync argument additionally broadcasts, and only that branch
can return something other than false. -/
def setCfg (host : Host) (config : Option JsValue) (isAutoSync : Option Bool)
    (s : PluginState) : PluginState × Bool × List Eff :=
  if optTruthy config then
    let s1 := { s with mainConfig := config }
    if isAutoSync = some true then
      let r := sendCfgsyncEvents host s1 none
      (s1, r.1, r.2)
    else (s1, false, [])
  else (s, false, [])

/-- The public setCfg operation: forwards the stored auto-sync flag. -/
def setCfgPublic (host : Host) (config : Option JsValue)
    (s : PluginState) : PluginState × Bool × List Eff :=
  setCfg host config s.isAutoSync s

/-- The updateEventListenerName operation: always unsubscribe first; a
truthy name then updates the stored event name and runs addEventListener
(which resubscribes only in receive mode); the inner helpers swallow their
own exceptions, so an exception escaping to the outer handler (returning
false) cannot arise in this model and true is returned. -/
def updateEventListenerName (host : Host) (name : Option String)
    (s : PluginState) : PluginState × Bool :=
  let s1 := eventOff host s
  match name with
  | some n =>
    if n != "" then
      (addEventListener host { s1 with evtName := some n }, true)
    else (s1, true)
  | none => (s1, true)

/-- The replaceTartgetByKeys wrapper (name kept from the source): runs the
selective merge with level 1 and maximum level 5 when the non-override
rules are present and the config is truthy, and yields null otherwise or on
a swallowed internal error. -/
def replaceTartgetByKeys (s : PluginState) (cfg : JsValue) : Option JsValue :=
  match s.nonOverrideConfigs with
  | some rules =>
    if cfg.truthy then replaceByNonOverrideCfg (some cfg) (some rules) 1 5
    else none
  | none => none

/-- What the bus handler did with one delivered event. -/
inductive HandlerAction where
  | delegated (d : JsValue) : HandlerAction
  | updatedCfg (c : JsValue) : HandlerAction
  | noop : HandlerAction

/-- The handler installed by addEventListener: reads the event's detail;
when a receive callback is configured and the detail is truthy the detail
is handed to it; otherwise the detail's cfg field is selectively merged and
a truthy merge result is pushed to the core as a config update. -/
def cfgSyncEventHandler (s : PluginState) (event : Option JsValue) :
    HandlerAction :=
  let cfgEvent := jsField event "detail"
  if s.onCfgChangeReceive && optTruthy cfgEvent then
    match cfgEvent with
    | some d => .delegated d
    | none => .noop
  else
    match jsField cfgEvent "cfg" with
    | some c =>
      if c.truthy then
        match replaceTartgetByKeys s c with
        | some m => if m.truthy then .updatedCfg m else .noop
        | none => .noop
      else .noop
    | none => .noop

/-- The getFetchFnInterface selection: a configured fetch override wins;
otherwise the fetch-based strategy when the host supports fetch, else the
XHR-based strategy when supported, else nothing. -/
def getFetchFnInterface (host : Host) (s : PluginState) : Option FetchFnKind :=
  match s.overrideFetchFn with
  | some _ => some .overrideFn
  | none =>
    if host.fetchSupported then some .fetchImpl
    else if host.xhrSupported then some .xhrImpl
    else none

/-- Outcome of the awaited fetch promise: either it rejected, or it
resolved with an ok flag, a status and the result of awaiting text() on the
response (none when text extraction rejected, in which case the awaited
value is undefined). -/
inductive FetchResult where
  | rejected : FetchResult
  | resolved (ok : Bool) (status : Nat) (textRes : Option String) : FetchResult

/-- The invocations of the completion callback made by the fetchSender
strategy for one transport call, as (status, body) pairs: nothing happens
unless the url is truthy and a global fetch function exists; a rejected
fetch or a non-ok response invokes nothing; an ok response always reaches
the callback, carrying the awaited text value (undefined when text
extraction rejected). -/
def fetchSenderCalls (urlTruthy hasFetch : Bool) (outcome : FetchResult) :
    List (Nat × Option String) :=
  if urlTruthy && hasFetch then
    match outcome with
    | .rejected => []
    | .resolved ok status textRes => if ok then [(status, textRes)] else []
  else []

/-- The invocations of the completion callback made by the xhrSender
strategy: when open or send raises, the exception is swallowed and nothing
is invoked; otherwise the onreadystatechange handler fires once per element
of the ready-state sequence and forwards to the callback exactly at the
terminal state (4, DONE), passing whatever status and response text the
request carries. -/
def xhrSenderCalls (openSendRaises : Bool) (readyStates : List Nat)
    (status : Nat) (responseText : String) : List (Nat × Option String) :=
  if openSendRaises then []
  else (readyStates.filter fun st => st == 4).map
    fun _ => (status, some responseText)

/-- The onFetchComplete callback handed to the transport by the engine:
only a status in [200,400) together with a truthy body reaches the JSON
facility; a missing facility, a parse exception or a falsy parse result is
a silent no-op, and a truthy parse result goes through the private setCfg
path with the isAutoSync argument the transport captured. -/
def onFetchComplete (host : Host) (status : Nat) (response : Option String)
    (isAutoSync : Option Bool) (s : PluginState) : PluginState × List Eff :=
  if 200 ≤ status ∧ status < 400 ∧ strTruthy response then
    match host.json with
    | some parse =>
      match parse (response.getD "") with
      | some cfg =>
        if cfg.truthy then
          let r := setCfg host (some cfg) isAutoSync s
          (r.1, r.2.2)
        else (s, [])
      | none => (s, [])
    | none => (s, [])
  else (s, [])

/-- Resolution of customEvtName against the built-in event name: a missing
or empty custom name falls back to the default. -/
def strOrDefault (o : Option String) (d : String) : String :=
  match o with
  | some s => if s = "" then d else s
  | none => d

/-- First statement of the config-change callback: isAutoSync is assigned
from disableAutoSync only while it is null. -/
def latchAutoSync (e : ExtConfig) (s : PluginState) : PluginState :=
  if s.isAutoSync = none then { s with isAutoSync := some (!e.disableAutoSync) }
  else s

/-- Second statement of the config-change callback: receiveChanges is
assigned only while it is null. -/
def latchReceiveChanges (e : ExtConfig) (s : PluginState) : PluginState :=
  if s.receiveChanges = none
  then { s with receiveChanges := some e.receiveChanges } else s

/-- Event-name reconciliation of the config-change callback: when the
resolved name differs from the stored one, receive mode re-subscribes
under the new name, while broadcast-only mode just unsubscribes and
records the name. -/
def reconcileEvtName (host : Host) (e : ExtConfig) (s : PluginState) :
    PluginState :=
  if s.evtName ≠ some (strOrDefault e.customEvtName "cfgsync") then
    if s.receiveChanges = some true then
      (updateEventListenerName host
        (some (strOrDefault e.customEvtName "cfgsync")) s).1
    else { eventOff host s with
      evtName := some (strOrDefault e.customEvtName "cfgsync") }
  else s

/-- cfgUrl latch of the config-change callback: assigned only while
null. -/
def latchCfgUrl (e : ExtConfig) (s : PluginState) : PluginState :=
  if s.cfgUrl = none then { s with cfgUrl := e.cfgUrl } else s

/-- Tail of the config-change callback: with no cfgUrl established the
host config becomes the snapshot and, when auto-sync is on, is broadcast
at once; with a cfgUrl the host config is ignored. -/
def adoptAndBroadcast (host : Host) (config : JsValue) (s : PluginState) :
    PluginState × List Eff :=
  if strTruthy s.cfgUrl then (s, [])
  else
    let s5 := { s with mainConfig := some config }
    if s5.isAutoSync = some true then
      let r := sendCfgsyncEvents host s5 none
      (s5, r.2)
    else (s5, [])

/-- One host config-change notification as processed by the callback
registered in populateDefaults: its statements in source order. -/
def onConfigChangeStep (host : Host) (e : ExtConfig) (config : JsValue)
    (s : PluginState) : PluginState × List Eff :=
  adoptAndBroadcast host config
    (latchCfgUrl e
      (reconcileEvtName host e
        (latchReceiveChanges e
          (latchAutoSync e s))))

/-- A sequence of host config-change notifications, applied in delivery
order. -/
def runNotifications (host : Host) (ns : List (ExtConfig × JsValue))
    (s : PluginState) : PluginState :=
  ns.foldl (fun st n => (onConfigChangeStep host n.1 n.2 st).1) s

/-- The setupTimer helper: arms a poll timer only when none is live and the
fetch span is truthy. -/
def setupTimer (s : PluginState) : PluginState :=
  if !s.timeoutHandle && natTruthy s.fetchSpan then
    { s with timeoutHandle := true }
  else s

/-- One firing of the armed poll timer: the handle is cleared, the selected
transport is invoked on the stored url, and the timer is re-armed.  The
invocation of the transport variable is not guarded here, so a missing
transport makes the tick raise a TypeError (calling null as a function)
and the loop never re-arms. -/
def timerTick (s : PluginState) : Except String (PluginState × List Eff) :=
  if s.timeoutHandle then
    let s1 := { s with timeoutHandle := false }
    match s1.fetchFn with
    | some _ => .ok (setupTimer s1, [.fetchDispatch s1.cfgUrl s1.isAutoSync])
    | none => .error "TypeError"
  else .ok (s, [])

/-- The populateDefaults body: the config-change callback runs once
immediately, then the override functions, receive callback, rules and span
are stored, and when a cfgUrl is established the transport is selected, an
initial guarded fetch is dispatched and the poll timer is set up. -/
def populateDefaults (host : Host) (e : ExtConfig) (config : JsValue)
    (s : PluginState) : PluginState × List Eff :=
  let r1 := onConfigChangeStep host e config s
  let s2 := { r1.1 with
    overrideSyncFn := e.overrideSyncFn
    overrideFetchFn := e.overrideFetchFn
    onCfgChangeReceive := e.onCfgChangeReceive
    nonOverrideConfigs := e.nonOverrideConfigs
    fetchSpan := e.scheduleFetchTimeout }
  if strTruthy s2.cfgUrl then
    let s3 := { s2 with fetchFn := getFetchFnInterface host s2 }
    let r2 : PluginState × List Eff :=
      match s3.fetchFn with
      | some _ => (s3, [.fetchDispatch s3.cfgUrl s3.isAutoSync])
      | none => (s3, [])
    (setupTimer r2.1, r1.2 ++ r2.2)
  else (s2, r1.2)

/-- The clearScheduledTimer helper: cancel and drop the handle. -/
def clearScheduledTimer (s : PluginState) : PluginState :=
  { s with timeoutHandle := false }

/-- The doTeardown operation: eventOff, clearScheduledTimer and
initDefaults in sequence; since initDefaults nulls every field the result
is the initial state. -/
def doTeardown (host : Host) (s : PluginState) : PluginState :=
  let s1 := eventOff host s
  let s2 := clearScheduledTimer s1
  let _ := s2
  initDefaults

/-! Concrete fixtures used by witnesses and counterexamples. -/

/-- The default protected-key rule set of the plugin. -/
def rdef : Rules :=
  [("instrumentationKey", true), ("connectionString", true),
   ("endpointUrl", true)]

/-- A host supporting neither fetch nor XHR and without a JSON facility. -/
def host0 : Host :=
  { hasGlobal := true
    fetchSupported := false
    xhrSupported := false
    json := none
    sendCustomEvent := fun _ _ _ => .ret true }

/-- A concrete remote-document parse function. -/
def parse1 : String → Option JsValue :=
  fun s =>
    if s = "remote-cfg-body" then some (.obj [("sampleRate", .num 10)])
    else none

/-- A fetch-capable host whose JSON facility understands one document. -/
def host1 : Host :=
  { hasGlobal := true
    fetchSupported := true
    xhrSupported := false
    json := some parse1
    sendCustomEvent := fun _ _ _ => .ret true }

/-- A parse function that successfully parses the document false, a valid
but falsy JSON document. -/
def parse2 : String → Option JsValue :=
  fun s => if s = "false" then some (.bool false) else none

/-- A fetch-capable host whose JSON facility understands the document
false. -/
def host2 : Host :=
  { hasGlobal := true
    fetchSupported := true
    xhrSupported := false
    json := some parse2
    sendCustomEvent := fun _ _ _ => .ret true }

/-- An extension configuration that points the engine at a remote config
url. -/
def e0 : ExtConfig :=
  { disableAutoSync := false
    customEvtName := none
    cfgUrl := some "https://example/cfg.json"
    receiveChanges := false
    overrideSyncFn := none
    overrideFetchFn := none
    onCfgChangeReceive := false
    scheduleFetchTimeout := some 1800000
    nonOverrideConfigs := some rdef }

/-- An extension configuration without a remote url and with auto-sync
disabled. -/
def e1 : ExtConfig := { e0 with cfgUrl := none, disableAutoSync := true }

/-- A fully running plugin state as it looks right before teardown: a poll
timer armed, a listener attached, a snapshot held, fetch mode active. -/
def preTeardown : PluginState :=
  { initDefaults with
      timeoutHandle := true
      listenerOn := some "cfgsync"
      mainConfig := some (.obj [])
      isAutoSync := some true
      cfgUrl := some "https://example/cfg.json"
      fetchSpan := some 1800000
      receiveChanges := some false
      fetchFn := some .fetchImpl }

/-- A state with a receive-callback override configured. -/
def recvOverrideState : PluginState :=
  { initDefaults with
      onCfgChangeReceive := true
      receiveChanges := some true
      nonOverrideConfigs := some rdef }

/-- A state ready to merge incoming events with the default rules. -/
def sMerge : PluginState :=
  { initDefaults with nonOverrideConfigs := some rdef }

/-- A state in which the latched fields are already established. -/
def latchedStart : PluginState :=
  { initDefaults with
      isAutoSync := some true
      receiveChanges := some false
      cfgUrl := some "https://example/cfg.json" }

/-! Small projection lemmas: the listener bookkeeping helpers never touch
the latched fields. -/

theorem eventOff_latched (host : Host) (s : PluginState) :
    (eventOff host s).isAutoSync = s.isAutoSync ∧
    (eventOff host s).receiveChanges = s.receiveChanges ∧
    (eventOff host s).cfgUrl = s.cfgUrl := by
  unfold eventOff
  split <;> exact ⟨rfl, rfl, rfl⟩

theorem addEventListener_latched (host : Host) (s : PluginState) :
    (addEventListener host s).isAutoSync = s.isAutoSync ∧
    (addEventListener host s).receiveChanges = s.receiveChanges ∧
    (addEventListener host s).cfgUrl = s.cfgUrl := by
  unfold addEventListener
  split
  · split <;> exact ⟨rfl, rfl, rfl⟩
  · exact ⟨rfl, rfl, rfl⟩

theorem updateEventListenerName_latched (host : Host) (n : Option String)
    (s : PluginState) :
    (updateEventListenerName host n s).1.isAutoSync = s.isAutoSync ∧
    (updateEventListenerName host n s).1.receiveChanges = s.receiveChanges ∧
    (updateEventListenerName host n s).1.cfgUrl = s.cfgUrl := by
  unfold updateEventListenerName
  cases n with
  | none => exact eventOff_latched host s
  | some n =>
    by_cases hn : n != ""
    · simp only [hn, if_true]
      refine ⟨?_, ?_, ?_⟩ <;>
        simp [addEventListener_latched, eventOff_latched,
          (addEventListener_latched host
            { eventOff host s with evtName := some n }).1,
          (addEventListener_latched host
            { eventOff host s with evtName := some n }).2.1,
          (addEventListener_latched host
            { eventOff host s with evtName := some n }).2.2,
          (eventOff_latched host s).1, (eventOff_latched host s).2.1,
          (eventOff_latched host s).2.2]
    · simp only [hn, if_false]
      exact eventOff_latched host s

theorem latchAutoSync_fields (e : ExtConfig) (s : PluginState) :
    (∀ b, s.isAutoSync = some b → (latchAutoSync e s).isAutoSync = some b) ∧
    (latchAutoSync e s).receiveChanges = s.receiveChanges ∧
    (latchAutoSync e s).cfgUrl = s.cfgUrl := by
  unfold latchAutoSync
  split
  · next h => exact ⟨fun b hb => absurd hb (h ▸ Option.noConfusion), rfl, rfl⟩
  · exact ⟨fun b hb => hb, rfl, rfl⟩

theorem latchReceiveChanges_fields (e : ExtConfig) (s : PluginState) :
    (latchReceiveChanges e s).isAutoSync = s.isAutoSync ∧
    (∀ b, s.receiveChanges = some b →
      (latchReceiveChanges e s).receiveChanges = some b) ∧
    (latchReceiveChanges e s).cfgUrl = s.cfgUrl := by
  unfold latchReceiveChanges
  split
  · next h => exact ⟨rfl, fun b hb => absurd hb (h ▸ Option.noConfusion), rfl⟩
  · exact ⟨rfl, fun b hb => hb, rfl⟩

theorem reconcileEvtName_latched (host : Host) (e : ExtConfig)
    (s : PluginState) :
    (reconcileEvtName host e s).isAutoSync = s.isAutoSync ∧
    (reconcileEvtName host e s).receiveChanges = s.receiveChanges ∧
    (reconcileEvtName host e s).cfgUrl = s.cfgUrl := by
  unfold reconcileEvtName
  by_cases h : s.evtName ≠ some (strOrDefault e.customEvtName "cfgsync")
  · rw [if_pos h]
    by_cases h2 : s.receiveChanges = some true
    · rw [if_pos h2]
      exact updateEventListenerName_latched host _ s
    · rw [if_neg h2]
      exact ⟨(eventOff_latched host s).1, (eventOff_latched host s).2.1,
        (eventOff_latched host s).2.2⟩
  · rw [if_neg h]
    exact ⟨rfl, rfl, rfl⟩

theorem latchCfgUrl_fields (e : ExtConfig) (s : PluginState) :
    (latchCfgUrl e s).isAutoSync = s.isAutoSync ∧
    (latchCfgUrl e s).receiveChanges = s.receiveChanges ∧
    (∀ u, s.cfgUrl = some u → (latchCfgUrl e s).cfgUrl = some u) := by
  unfold latchCfgUrl
  split
  · next h => exact ⟨rfl, rfl, fun u hu => absurd hu (h ▸ Option.noConfusion)⟩
  · exact ⟨rfl, rfl, fun u hu => hu⟩

theorem adoptAndBroadcast_latched (host : Host) (config : JsValue)
    (s : PluginState) :
    (adoptAndBroadcast host config s).1.isAutoSync = s.isAutoSync ∧
    (adoptAndBroadcast host config s).1.receiveChanges = s.receiveChanges ∧
    (adoptAndBroadcast host config s).1.cfgUrl = s.cfgUrl := by
  unfold adoptAndBroadcast
  split
  · exact ⟨rfl, rfl, rfl⟩
  · dsimp only
    split <;> exact ⟨rfl, rfl, rfl⟩

/-- One config-change notification assigns isAutoSync, receiveChanges and
cfgUrl only when unset: established values survive the step. -/
theorem onConfigChangeStep_latched (host : Host) (e : ExtConfig)
    (config : JsValue) (s : PluginState) :
    (∀ b, s.isAutoSync = some b →
      (onConfigChangeStep host e config s).1.isAutoSync = some b) ∧
    (∀ b, s.receiveChanges = some b →
      (onConfigChangeStep host e config s).1.receiveChanges = some b) ∧
    (∀ u, s.cfgUrl = some u →
      (onConfigChangeStep host e config s).1.cfgUrl = some u) := by
  unfold onConfigChangeStep
  set t1 := latchAutoSync e s with ht1
  set t2 := latchReceiveChanges e t1 with ht2
  set t3 := reconcileEvtName host e t2 with ht3
  set t4 := latchCfgUrl e t3 with ht4
  have h1 := latchAutoSync_fields e s
  have h2 := latchReceiveChanges_fields e t1
  have h3 := reconcileEvtName_latched host e t2
  have h4 := latchCfgUrl_fields e t3
  have h5 := adoptAndBroadcast_latched host config t4
  refine ⟨?_, ?_, ?_⟩
  · intro b hb
    rw [h5.1, h4.1, h3.1, h2.1]
    exact h1.1 b hb
  · intro b hb
    rw [h5.2.1, h4.2.1, h3.2.1]
    exact h2.2.1 b (h1.2.1 ▸ hb)
  · intro u hu
    rw [h5.2.2]
    exact h4.2.2 u (by rw [h3.2.2, h2.2.2, h1.2.2]; exact hu)

/-- C3: The fields isAutoSync, receiveChanges and cfgUrl are latched:
each is assigned by a host config-change notification only when it is
currently unset, so over any sequence of config-change notifications,
once any of these fields is established no later notification changes
it. -/
theorem latched_fields_preserved (host : Host)
    (ns : List (ExtConfig × JsValue)) (s : PluginState) :
    (∀ b, s.isAutoSync = some b →
      (runNotifications host ns s).isAutoSync = some b) ∧
    (∀ b, s.receiveChanges = some b →
      (runNotifications host ns s).receiveChanges = some b) ∧
    (∀ u, s.cfgUrl = some u →
      (runNotifications host ns s).cfgUrl = some u) := by
  induction ns generalizing s with
  | nil => exact ⟨fun _ h => h, fun _ h => h, fun _ h => h⟩
  | cons n rest ih =>
    have hstep := onConfigChangeStep_latched host n.1 n.2 s
    have hrun : runNotifications host (n :: rest) s =
        runNotifications host rest (onConfigChangeStep host n.1 n.2 s).1 := rfl
    refine ⟨?_, ?_, ?_⟩
    · intro b hb
      rw [hrun]
      exact (ih (onConfigChangeStep host n.1 n.2 s).1).1 b (hstep.1 b hb)
    · intro b hb
      rw [hrun]
      exact (ih (onConfigChangeStep host n.1 n.2 s).1).2.1 b (hstep.2.1 b hb)
    · intro u hu
      rw [hrun]
      exact (ih (onConfigChangeStep host n.1 n.2 s).1).2.2 u (hstep.2.2 u hu)

/-- Witness for C3: a state with every latched field established keeps
them all across a further notification that tries different values. -/
theorem latched_fields_preserved_witness :
    latchedStart.isAutoSync = some true ∧
    latchedStart.receiveChanges = some false ∧
    latchedStart.cfgUrl = some "https://example/cfg.json" ∧
    (runNotifications host1 [(e1, .obj []), (e0, .obj [])]
      latchedStart).isAutoSync = some true ∧
    (runNotifications host1 [(e1, .obj []), (e0, .obj [])]
      latchedStart).receiveChanges = some false ∧
    (runNotifications host1 [(e1, .obj []), (e0, .obj [])]
      latchedStart).cfgUrl = some "https://example/cfg.json" :=
  ⟨rfl, rfl, rfl,
    (latched_fields_preserved host1 [(e1, .obj []), (e0, .obj [])]
      latchedStart).1 true rfl,
    (latched_fields_preserved host1 [(e1, .obj []), (e0, .obj [])]
      latchedStart).2.1 false rfl,
    (latched_fields_preserved host1 [(e1, .obj []), (e0, .obj [])]
      latchedStart).2.2 "https://example/cfg.json" rfl⟩

/-- C1: teardown does cancel the pending poll timer and detach the bus
listener, but an in-flight network response that completes after teardown
is not a no-op: delivered against the torn-down state, a successful
response re-enters the private setCfg path, writes the parsed document as
a new config snapshot, and (the transport having captured a truthy
isAutoSync) even attempts a broadcast under the nulled event name.  This
contradicts the specified guarantee that no further callback mutates
engine state after teardown returns. -/
theorem teardown_then_inflight_fetch_mutates_state :
    (doTeardown host1 preTeardown).timeoutHandle = false ∧
    (doTeardown host1 preTeardown).listenerOn = none ∧
    (doTeardown host1 preTeardown).mainConfig = none ∧
    (onFetchComplete host1 200 (some "remote-cfg-body") (some true)
        (doTeardown host1 preTeardown)).1.mainConfig
      = some (.obj [("sampleRate", .num 10)]) ∧
    (onFetchComplete host1 200 (some "remote-cfg-body") (some true)
        (doTeardown host1 preTeardown)).2
      = [.emitEvent none (some (.obj [("sampleRate", .num 10)])) none] :=
  ⟨rfl, rfl, rfl, rfl, rfl⟩

/-- C4: with a cfgUrl configured but no override fetch function and a host
supporting neither fetch nor XHR, the initial fetch call is guarded away,
yet the poll timer is still armed, and its first tick invokes the missing
transport unguarded, raising a TypeError instead of degrading to a no-op
(and the loop never re-arms).  This contradicts the specified no-op
degradation of the fetch/poll path. -/
theorem poll_without_transport_raises :
    (populateDefaults host0 e0 (.obj []) initDefaults).1.timeoutHandle
        = true ∧
    (populateDefaults host0 e0 (.obj []) initDefaults).1.fetchFn = none ∧
    timerTick (populateDefaults host0 e0 (.obj []) initDefaults).1
        = .error "TypeError" :=
  ⟨rfl, rfl, rfl⟩

/-- C9: sync delegates entirely to a configured override, returning its
value as is and emitting nothing further; without an override the current
snapshot is emitted on the shared bus under the current event name; an
exception during either send is swallowed and false is returned. -/
theorem sync_spec_holds (host : Host) (s : PluginState)
    (details : Option JsValue) :
    (∀ f, s.overrideSyncFn = some f →
      (∀ b, f s.mainConfig details = .ret b →
        sendCfgsyncEvents host s details = (b, [])) ∧
      (f s.mainConfig details = .thrown →
        sendCfgsyncEvents host s details = (false, []))) ∧
    (s.overrideSyncFn = none →
      (∀ b, host.sendCustomEvent s.evtName s.mainConfig details = .ret b →
        sendCfgsyncEvents host s details =
          (b, [.emitEvent s.evtName s.mainConfig details])) ∧
      (host.sendCustomEvent s.evtName s.mainConfig details = .thrown →
        sendCfgsyncEvents host s details = (false, []))) := by
  constructor
  · intro f hf
    constructor
    · intro b hb
      unfold sendCfgsyncEvents
      simp only [hf, hb]
    · intro hb
      unfold sendCfgsyncEvents
      simp only [hf, hb]
  · intro hnone
    constructor
    · intro b hb
      unfold sendCfgsyncEvents
      simp only [hnone, hb]
    · intro hb
      unfold sendCfgsyncEvents
      simp only [hnone, hb]

/-- Witness for C9: on a state without an override, the bus emission
succeeds and carries the snapshot under the stored event name. -/
theorem sync_spec_holds_witness :
    preTeardown.overrideSyncFn = none ∧
    host1.sendCustomEvent preTeardown.evtName preTeardown.mainConfig none
      = .ret true ∧
    sendCfgsyncEvents host1 preTeardown none
      = (true, [.emitEvent none (some (.obj [])) none]) :=
  ⟨rfl, rfl,
    ((sync_spec_holds host1 preTeardown none).2 rfl).1 true rfl⟩

/-- C10: a truthy config together with a falsy auto-sync argument makes
the private setCfg path replace the stored snapshot while still returning
false and emitting nothing: a false return does not mean the snapshot was
left unchanged, only that no broadcast was attempted. -/
theorem setCfg_truthy_falsy_auto_returns_false (host : Host)
    (s : PluginState) (c : JsValue) (auto : Option Bool)
    (hc : c.truthy = true) (ha : auto ≠ some true) :
    setCfg host (some c) auto s
      = ({ s with mainConfig := some c }, false, []) := by
  unfold setCfg
  rw [if_pos (show optTruthy (some c) = true from hc), if_neg ha]

/-- Witness for C10: a concrete truthy config with the auto-sync argument
null replaces the snapshot and returns false. -/
theorem setCfg_truthy_falsy_auto_returns_false_witness :
    JsValue.truthy (.obj [("sampleRate", .num 10)]) = true ∧
    (none : Option Bool) ≠ some true ∧
    setCfg host1 (some (.obj [("sampleRate", .num 10)])) none initDefaults
      = ({ initDefaults with mainConfig := some (.obj [("sampleRate", .num 10)]) },
          false, []) :=
  ⟨rfl, by simp,
    setCfg_truthy_falsy_auto_returns_false host1 initDefaults
      (.obj [("sampleRate", .num 10)]) none rfl (by simp)⟩

/-- The xhr strategy invokes the callback once per terminal ready state in
the lifecycle sequence. -/
theorem xhrSenderCalls_replicate (l : List Nat) (status : Nat)
    (text : String) :
    xhrSenderCalls false l status text
      = List.replicate (l.count 4) (status, some text) := by
  show (l.filter fun st => st == 4).map (fun _ => (status, some text))
      = List.replicate (l.count 4) (status, some text)
  induction l with
  | nil => rfl
  | cons a t ih =>
    by_cases ha : (a == 4) = true
    · have hc : (a :: t).count 4 = t.count 4 + 1 := by
        simp [List.count_cons, ha]
      have hf : List.filter (fun st => st == 4) (a :: t)
          = a :: List.filter (fun st => st == 4) t := by
        simp [List.filter_cons, ha]
      rw [hf, List.map_cons, ih, hc, List.replicate_succ]
    · have hc : (a :: t).count 4 = t.count 4 := by
        simp [List.count_cons, ha]
      have hf : List.filter (fun st => st == 4) (a :: t)
          = List.filter (fun st => st == 4) t := by
        simp [List.filter_cons, ha]
      rw [hf, ih, hc]

/-- C2, counterexample: a fetch invocation whose response resolves ok with
status 200 but whose text extraction rejects (the awaited text value is
undefined) still invokes the completion callback — with an undefined body —
contradicting the claim that onComplete runs only when text extraction
succeeds and that a rejection invokes nothing further. -/
theorem fetch_onComplete_invoked_despite_text_failure :
    fetchSenderCalls true true (.resolved true 200 none) = [(200, none)] ∧
    fetchSenderCalls true true (.resolved true 200 none) ≠ [] :=
  ⟨rfl, by decide⟩

/-- C2, amended: for the fetch strategy the completion callback is invoked
exactly when the url and the global fetch function are present and the
fetch promise resolves with an ok response; the body passed is the awaited
text value, which is undefined when text extraction rejected; a rejected
fetch or a non-ok response invokes nothing.  For the legacy XHR strategy,
when open/send do not raise, the callback is invoked exactly once when the
lifecycle reaches the terminal ready state, regardless of status, with
whatever status and text are available; a raising open/send invokes
nothing. -/
theorem transport_onComplete_amended :
    (∀ (urlT hasF ok : Bool) (status : Nat) (textRes : Option String),
      fetchSenderCalls urlT hasF (.resolved ok status textRes)
        = if urlT && hasF && ok then [(status, textRes)] else []) ∧
    (∀ urlT hasF, fetchSenderCalls urlT hasF .rejected = []) ∧
    (∀ (readyStates : List Nat) (status : Nat) (text : String),
      readyStates.count 4 = 1 →
      xhrSenderCalls false readyStates status text = [(status, some text)]) ∧
    (∀ readyStates status text,
      xhrSenderCalls true readyStates status text = []) := by
  refine ⟨?_, ?_, ?_, ?_⟩
  · intro urlT hasF ok status textRes
    unfold fetchSenderCalls
    by_cases hu : (urlT && hasF) = true
    · rw [if_pos hu]
      by_cases hok : ok = true
      · subst hok
        simp [hu]
      · have : ok = false := by
          cases ok
          · rfl
          · exact absurd rfl hok
        subst this
        simp [hu]
    · rw [if_neg hu]
      have : (urlT && hasF && ok) = false := by
        cases h : (urlT && hasF)
        · simp
        · exact absurd h hu
      rw [this]
      simp
  · intro urlT hasF
    unfold fetchSenderCalls
    split <;> rfl
  · intro readyStates status text h
    rw [xhrSenderCalls_replicate, h]
    rfl
  · intro readyStates status text
    rfl

/-- Witness for C2 amended: a resolved ok fetch response with extracted
text reaches the callback, and a standard XHR lifecycle (states 1,2,3,4)
invokes the callback once at the terminal state even with status 404. -/
theorem transport_onComplete_amended_witness :
    ([1, 2, 3, 4] : List Nat).count 4 = 1 ∧
    fetchSenderCalls true true (.resolved true 200 (some "body"))
      = [(200, some "body")] ∧
    xhrSenderCalls false [1, 2, 3, 4] 404 "not found"
      = [(404, some "not found")] :=
  ⟨by decide,
    by
      have h := transport_onComplete_amended.1 true true true 200 (some "body")
      simpa using h,
    transport_onComplete_amended.2.2.1 [1, 2, 3, 4] 404 "not found"
      (by decide)⟩

theorem addEventListener_evtName (host : Host) (s : PluginState) :
    (addEventListener host s).evtName = s.evtName := by
  unfold addEventListener
  split
  · split <;> rfl
  · rfl

theorem addEventListener_listenerOn (host : Host) (s : PluginState)
    (hg : host.hasGlobal = true) :
    (addEventListener host s).listenerOn =
      (if s.receiveChanges = some true then s.evtName else s.listenerOn) := by
  unfold addEventListener
  by_cases h : s.receiveChanges = some true
  · rw [if_pos h, if_pos hg, if_pos h]
  · rw [if_neg h, if_neg h]

/-- C8, counterexample: with receive mode not enabled, a call with a fresh
name unsubscribes, updates the stored event name and returns true, but no
listener is re-subscribed under the new name, against the claim that the
listener is re-subscribed whenever a name is provided. -/
theorem updateEventListenerName_no_resubscribe_without_receive :
    initDefaults.receiveChanges ≠ some true ∧
    (updateEventListenerName host1 (some "widget") initDefaults).2 = true ∧
    (updateEventListenerName host1 (some "widget") initDefaults).1.evtName
      = some "widget" ∧
    (updateEventListenerName host1 (some "widget")
      initDefaults).1.listenerOn = none :=
  ⟨fun h => Option.noConfusion h, rfl, rfl, rfl⟩

/-- C8, amended: on a host with a global object, updateEventListenerName
always unsubscribes the current listener first and returns true (the bus
primitives swallow their own exceptions); a provided truthy name updates
the stored event name and re-subscribes the listener under the new name
exactly when receive mode is enabled; a missing or empty name leaves the
stored name unchanged and the listener detached. -/
theorem updateEventListenerName_amended (host : Host) (name : Option String)
    (s : PluginState) (hg : host.hasGlobal = true) :
    (updateEventListenerName host name s).2 = true ∧
    (∀ n, name = some n → n ≠ "" →
      (updateEventListenerName host name s).1.evtName = some n ∧
      (updateEventListenerName host name s).1.listenerOn =
        (if s.receiveChanges = some true then some n else none)) ∧
    (strTruthy name = false →
      (updateEventListenerName host name s).1.listenerOn = none ∧
      (updateEventListenerName host name s).1.evtName = s.evtName) := by
  have he : eventOff host s = { s with listenerOn := none } := by
    unfold eventOff
    rw [if_pos hg]
  refine ⟨?_, ?_, ?_⟩
  · unfold updateEventListenerName
    cases name with
    | none => rfl
    | some n =>
      dsimp only
      split <;> rfl
  · intro n hn hne
    subst hn
    have hbn : (n != "") = true := by
      simpa [bne_iff_ne] using hne
    unfold updateEventListenerName
    dsimp only
    rw [if_pos hbn, he]
    constructor
    · rw [addEventListener_evtName]
    · rw [addEventListener_listenerOn host _ hg]
  · intro hf
    unfold updateEventListenerName
    cases name with
    | none =>
      dsimp only
      rw [he]
      exact ⟨rfl, rfl⟩
    | some n =>
      have hn : n = "" := by
        simpa [strTruthy, bne_iff_ne] using hf
      subst hn
      dsimp only
      rw [if_neg (by decide), he]
      exact ⟨rfl, rfl⟩

/-- Witness for C8 amended: in receive mode the listener comes back under
the new name and the call returns true. -/
theorem updateEventListenerName_amended_witness :
    host1.hasGlobal = true ∧
    (updateEventListenerName host1 (some "widget")
      recvOverrideState).2 = true ∧
    (updateEventListenerName host1 (some "widget")
      recvOverrideState).1.evtName = some "widget" ∧
    (updateEventListenerName host1 (some "widget")
      recvOverrideState).1.listenerOn = some "widget" := by
  have h := updateEventListenerName_amended host1 (some "widget")
    recvOverrideState rfl
  have h2 := h.2.1 "widget" rfl (by decide)
  exact ⟨rfl, h.1, h2.1, by simpa using h2.2⟩

/-- Property access through a falsy receiver is undefined. -/
theorem jsField_of_falsy (ov : Option JsValue) (k : String)
    (h : optTruthy ov = false) : jsField ov k = none := by
  cases ov with
  | none => rfl
  | some v => cases v <;> simp_all [optTruthy, JsValue.truthy, jsField]

/-- C5, counterexample: with a receive-callback override configured, an
event carrying no detail is not delegated at all (the handler is a no-op),
against the claim that every bus event is delegated verbatim to a
configured override. -/
theorem receive_override_not_delegated_without_detail :
    recvOverrideState.onCfgChangeReceive = true ∧
    (∀ d, cfgSyncEventHandler recvOverrideState (some (.obj []))
      ≠ .delegated d) := by
  refine ⟨rfl, ?_⟩
  intro d h
  have h2 : HandlerAction.noop = HandlerAction.delegated d := by
    calc HandlerAction.noop
        = cfgSyncEventHandler recvOverrideState (some (.obj [])) := by rfl
      _ = .delegated d := h
  exact HandlerAction.noConfusion h2

/-- C5, amended: when a receive-callback override is configured and the
event's detail is truthy, the detail (the cfgsync payload) is handed to the
override; an event with a falsy detail is a silent no-op even with an
override configured.  Without an override, detail.cfg is extracted and
selectively merged, the host configuration is updated exactly with a
non-null (truthy) merge result, and a falsy cfg or a null merge result
leaves all state unchanged and raises no error. -/
theorem event_handler_amended (s : PluginState) (event : Option JsValue) :
    (s.onCfgChangeReceive = true →
      (∀ d, jsField event "detail" = some d → d.truthy = true →
        cfgSyncEventHandler s event = .delegated d) ∧
      (optTruthy (jsField event "detail") = false →
        cfgSyncEventHandler s event = .noop)) ∧
    (s.onCfgChangeReceive = false →
      (∀ c m, jsField (jsField event "detail") "cfg" = some c →
        c.truthy = true → replaceTartgetByKeys s c = some m →
        m.truthy = true → cfgSyncEventHandler s event = .updatedCfg m) ∧
      (∀ c, jsField (jsField event "detail") "cfg" = some c →
        c.truthy = true → replaceTartgetByKeys s c = none →
        cfgSyncEventHandler s event = .noop) ∧
      (optTruthy (jsField (jsField event "detail") "cfg") = false →
        cfgSyncEventHandler s event = .noop)) := by
  refine ⟨?_, ?_⟩
  · intro ho
    constructor
    · intro d hd htr
      simp only [cfgSyncEventHandler, hd, ho, optTruthy, htr,
        Bool.true_and, if_true]
    · intro hf
      simp only [cfgSyncEventHandler, ho, hf, Bool.true_and, Bool.and_false,
        if_false, jsField_of_falsy _ _ hf]
      rfl
  · intro ho
    refine ⟨?_, ?_, ?_⟩
    · intro c m hc htr hm hmt
      simp only [cfgSyncEventHandler, ho, Bool.false_and, if_false, hc,
        htr, if_true, hm, hmt]
      rfl
    · intro c hc htr hm
      simp only [cfgSyncEventHandler, ho, Bool.false_and, if_false, hc,
        htr, if_true, hm]
      rfl
    · intro hf
      simp only [cfgSyncEventHandler, ho, Bool.false_and, if_false]
      rcases h : jsField (jsField event "detail") "cfg" with _ | c
      · rfl
      · rw [h] at hf
        have : c.truthy = false := hf
        simp only [this]
        rfl

/-- Witness for C5 amended: receiving an event whose cfg holds a protected
instrumentation key and a sample rate updates the host with the sample
rate only. -/
theorem event_handler_amended_witness :
    sMerge.onCfgChangeReceive = false ∧
    jsField (jsField (some (.obj [("detail", .obj [("cfg",
        .obj [("instrumentationKey", .str "x"), ("sampleRate", .num 50)])])]))
        "detail") "cfg"
      = some (.obj [("instrumentationKey", .str "x"),
          ("sampleRate", .num 50)]) ∧
    replaceTartgetByKeys sMerge
        (.obj [("instrumentationKey", .str "x"), ("sampleRate", .num 50)])
      = some (.obj [("sampleRate", .num 50)]) ∧
    cfgSyncEventHandler sMerge
        (some (.obj [("detail", .obj [("cfg",
          .obj [("instrumentationKey", .str "x"), ("sampleRate", .num 50)])])]))
      = .updatedCfg (.obj [("sampleRate", .num 50)]) :=
  ⟨rfl, rfl, rfl,
    ((event_handler_amended sMerge
      (some (.obj [("detail", .obj [("cfg",
        .obj [("instrumentationKey", .str "x"), ("sampleRate", .num 50)])])]))).2
      rfl).1
      (.obj [("instrumentationKey", .str "x"), ("sampleRate", .num 50)])
      (.obj [("sampleRate", .num 50)]) rfl rfl rfl rfl⟩

/-- A truthy config always lands in the snapshot through the private
setCfg path, whatever the auto-sync argument. -/
theorem setCfg_mainConfig (host : Host) (c : JsValue) (auto : Option Bool)
    (s : PluginState) (htr : c.truthy = true) :
    (setCfg host (some c) auto s).1.mainConfig = some c := by
  unfold setCfg
  rw [if_pos (show optTruthy (some c) = true from htr)]
  dsimp only
  split <;> rfl

/-- C6, counterexample: status 200 with the non-empty body false — which
the parser parses successfully, to the falsy document false — leaves the
snapshot unchanged, against the claim that the snapshot is replaced
exactly when the status is in range, the body non-empty and parsing
succeeds. -/
theorem fetch_complete_falsy_parse_no_snapshot :
    (200 ≤ 200 ∧ 200 < 400) ∧
    ("false" ≠ "") ∧
    host2.json = some parse2 ∧
    parse2 "false" = some (.bool false) ∧
    (onFetchComplete host2 200 (some "false") (some true)
      initDefaults).1 = initDefaults ∧
    (onFetchComplete host2 200 (some "false") (some true)
      initDefaults).1.mainConfig = none :=
  ⟨⟨by decide, by decide⟩, by decide, rfl, rfl, rfl, rfl⟩

/-- C6, amended: the snapshot is replaced with the parsed document (via
the private setCfg path with the captured isAutoSync flag) exactly when
the status is in [200,400), the body non-empty, the host JSON facility
present, and parsing succeeds with a truthy document; an out-of-range
status, empty body, missing facility, parse failure or falsy parse result
leaves the state unchanged and emits nothing. -/
theorem onFetchComplete_amended (host : Host) (status : Nat)
    (resp : Option String) (auto : Option Bool) (s : PluginState) :
    (∀ parse r c, host.json = some parse → resp = some r → r ≠ "" →
      200 ≤ status → status < 400 → parse r = some c → c.truthy = true →
      onFetchComplete host status resp auto s
        = ((setCfg host (some c) auto s).1,
            (setCfg host (some c) auto s).2.2) ∧
      (onFetchComplete host status resp auto s).1.mainConfig = some c) ∧
    (status < 200 ∨ 400 ≤ status →
      onFetchComplete host status resp auto s = (s, [])) ∧
    (strTruthy resp = false →
      onFetchComplete host status resp auto s = (s, [])) ∧
    (host.json = none →
      onFetchComplete host status resp auto s = (s, [])) ∧
    (∀ parse r, host.json = some parse → resp = some r → parse r = none →
      onFetchComplete host status resp auto s = (s, [])) ∧
    (∀ parse r c, host.json = some parse → resp = some r →
      parse r = some c → c.truthy = false →
      onFetchComplete host status resp auto s = (s, [])) := by
  refine ⟨?_, ?_, ?_, ?_, ?_, ?_⟩
  · intro parse r c hjson hresp hne h200 h400 hparse htr
    subst hresp
    have hcond : 200 ≤ status ∧ status < 400 ∧
        strTruthy (some r) = true :=
      ⟨h200, h400, by simpa [strTruthy, bne_iff_ne] using hne⟩
    have heq : onFetchComplete host status (some r) auto s
        = ((setCfg host (some c) auto s).1,
            (setCfg host (some c) auto s).2.2) := by
      unfold onFetchComplete
      rw [if_pos hcond]
      simp only [hjson, Option.getD_some, hparse, htr, if_true]
    exact ⟨heq, by rw [heq]; exact setCfg_mainConfig host c auto s htr⟩
  · intro hout
    unfold onFetchComplete
    rw [if_neg ?_]
    rintro ⟨h1, h2, _⟩
    rcases hout with h | h <;> omega
  · intro hf
    unfold onFetchComplete
    rw [if_neg ?_]
    rintro ⟨_, _, h3⟩
    rw [hf] at h3
    exact Bool.noConfusion h3
  · intro hjson
    unfold onFetchComplete
    split
    · simp only [hjson]
    · rfl
  · intro parse r hjson hresp hparse
    subst hresp
    unfold onFetchComplete
    split
    · simp only [hjson, Option.getD_some, hparse]
    · rfl
  · intro parse r c hjson hresp hparse htr
    subst hresp
    unfold onFetchComplete
    split
    · simp only [hjson, Option.getD_some, hparse, htr, if_false]
      rfl
    · rfl

/-- Witness for C6 amended: a 200 response whose body parses to a truthy
document replaces the snapshot with the parsed document. -/
theorem onFetchComplete_amended_witness :
    host1.json = some parse1 ∧
    parse1 "remote-cfg-body" = some (.obj [("sampleRate", .num 10)]) ∧
    (onFetchComplete host1 200 (some "remote-cfg-body") none
      initDefaults).1.mainConfig = some (.obj [("sampleRate", .num 10)]) := by
  have h := (onFetchComplete_amended host1 200 (some "remote-cfg-body")
      none initDefaults).1 parse1 "remote-cfg-body"
      (.obj [("sampleRate", .num 10)]) rfl rfl (by decide) (by decide)
      (by decide) rfl rfl
  exact ⟨rfl, rfl, h.2⟩

/-- Filtering out protected entries does not change lookups of unprotected
keys. -/
theorem lookupField_filter (r : Rules) (es : List (String × JsValue))
    (k : String) (hk : isProtected r k = false) :
    lookupField (es.filter fun kv => !(isProtected r kv.1)) k
      = lookupField es k := by
  induction es with
  | nil => rfl
  | cons kv rest ih =>
    obtain ⟨a, v⟩ := kv
    by_cases hp : isProtected r a = true
    · have hne : a ≠ k := fun he => by
        rw [he, hk] at hp
        exact Bool.noConfusion hp
      have hf : ((a, v) :: rest).filter (fun kv => !(isProtected r kv.1))
          = rest.filter (fun kv => !(isProtected r kv.1)) := by
        simp [List.filter_cons, hp]
      rw [hf, ih]
      simp [lookupField, hne]
    · have hp2 : (!(isProtected r a)) = true := by
        cases h : isProtected r a
        · rfl
        · exact absurd h hp
      have hf : ((a, v) :: rest).filter (fun kv => !(isProtected r kv.1))
          = (a, v) :: rest.filter (fun kv => !(isProtected r kv.1)) := by
        simp [List.filter_cons, hp2]
      rw [hf]
      by_cases he : a = k
      · simp [lookupField, he]
      · simp [lookupField, he, ih]

/-- A key-preserving map commutes with lookups. -/
theorem lookupField_map (g : JsValue → JsValue)
    (es : List (String × JsValue)) (k : String) :
    lookupField (es.map fun kv => (kv.1, g kv.2)) k
      = (lookupField es k).map g := by
  induction es with
  | nil => rfl
  | cons kv rest ih =>
    obtain ⟨a, v⟩ := kv
    by_cases he : a = k
    · simp [lookupField, he]
    · simp [lookupField, he, ih]

/-- The selective merge leaves non-objects untouched. -/
theorem sanitizeFuel_nonObj (r : Rules) (f : Nat) (v : JsValue)
    (h : ∀ es, v ≠ .obj es) : sanitizeFuel r f v = v := by
  cases f <;> cases v <;> first | rfl | exact absurd rfl (h _)

/-- The selective merge run with fuel f eliminates every protected key in
the top f + 1 levels of the result. -/
theorem protectedFreeUpto_sanitizeFuel (r : Rules) :
    ∀ (f : Nat) (c : JsValue),
      protectedFreeUpto r (f + 1) (sanitizeFuel r f c) = true := by
  intro f
  induction f with
  | zero =>
    intro c
    cases c with
    | obj es =>
      simp only [sanitizeFuel, protectedFreeUpto, List.all_eq_true]
      intro kv hmem
      have hp := List.of_mem_filter hmem
      simp_all [protectedFreeUpto]
    | null => rfl
    | bool b => rfl
    | num n => rfl
    | str s => rfl
  | succ f ih =>
    intro c
    cases c with
    | obj es =>
      simp only [sanitizeFuel, protectedFreeUpto, List.all_eq_true]
      intro kv hmem
      rw [List.mem_map] at hmem
      obtain ⟨kv0, hmem0, hkv⟩ := hmem
      have hp := List.of_mem_filter hmem0
      subst hkv
      simp only [Bool.and_eq_true]
      exact ⟨by simpa using hp, ih kv0.2⟩
    | null => rfl
    | bool b => rfl
    | num n => rfl
    | str s => rfl

/-- Pathwise characterisation of the selective merge along unprotected
paths: within the filtered depth the subtree is the recursively merged
original, beyond it the original subtree verbatim. -/
theorem lookupPath_sanitizeFuel (r : Rules) :
    ∀ (p : List String) (f : Nat) (c : JsValue),
      (∀ k ∈ p, isProtected r k = false) →
      lookupPath (sanitizeFuel r f c) p =
        if p.length ≤ f then
          (lookupPath c p).map (sanitizeFuel r (f - p.length))
        else lookupPath c p := by
  intro p
  induction p with
  | nil =>
    intro f c h
    simp [lookupPath]
  | cons k ks ih =>
    intro f c h
    have hk : isProtected r k = false := h k (List.mem_cons_self k ks)
    have hks : ∀ k2 ∈ ks, isProtected r k2 = false :=
      fun k2 hm => h k2 (List.mem_cons_of_mem k hm)
    cases c with
    | obj es =>
      cases f with
      | zero =>
        simp only [sanitizeFuel, lookupPath]
        rw [lookupField_filter r es k hk, if_neg (by simp)]
      | succ f =>
        simp only [sanitizeFuel, lookupPath]
        rw [lookupField_map (sanitizeFuel r f)
          (es.filter fun kv => !(isProtected r kv.1)) k,
          lookupField_filter r es k hk]
        cases hv : lookupField es k with
        | none =>
          simp only [Option.map_none']
          split <;> rfl
        | some v =>
          simp only [Option.map_some']
          rw [ih f v hks]
          by_cases hlen : ks.length ≤ f
          · rw [if_pos hlen, if_pos (by simp; omega)]
            have harith : f + 1 - (k :: ks).length = f - ks.length := by
              simp
            rw [harith]
          · rw [if_neg hlen, if_neg (by simp; omega)]
    | null =>
      rw [sanitizeFuel_nonObj r f _ (fun es h2 => JsValue.noConfusion h2)]
      have h2 : lookupPath JsValue.null (k :: ks) = none := rfl
      rw [h2]
      split <;> rfl
    | bool b =>
      rw [sanitizeFuel_nonObj r f _ (fun es h2 => JsValue.noConfusion h2)]
      have h2 : lookupPath (JsValue.bool b) (k :: ks) = none := rfl
      rw [h2]
      split <;> rfl
    | num n =>
      rw [sanitizeFuel_nonObj r f _ (fun es h2 => JsValue.noConfusion h2)]
      have h2 : lookupPath (JsValue.num n) (k :: ks) = none := rfl
      rw [h2]
      split <;> rfl
    | str sv =>
      rw [sanitizeFuel_nonObj r f _ (fun es h2 => JsValue.noConfusion h2)]
      have h2 : lookupPath (JsValue.str sv) (k :: ks) = none := rfl
      rw [h2]
      split <;> rfl

/-- C7: the selective merge as invoked by the engine (level 1, maximum
level 5) returns a tree with no protected key at any level up to the
maximum, structurally identical to the input elsewhere: along unprotected
paths within the filtered depth the subtree is the recursively merged
original subtree, beyond the maximum depth it is the original verbatim,
and in particular unprotected leaf values survive unchanged; a missing
rule set or a missing config yields null. -/
theorem sanitize_spec_holds (r : Rules) (c : JsValue) :
    (∀ out, replaceByNonOverrideCfg (some c) (some r) 1 5 = some out →
      protectedFreeUpto r 5 out = true ∧
      (∀ p : List String, (∀ k ∈ p, isProtected r k = false) →
        lookupPath out p =
          if p.length ≤ 4 then
            (lookupPath c p).map (sanitizeFuel r (4 - p.length))
          else lookupPath c p) ∧
      (∀ p v, (∀ k ∈ p, isProtected r k = false) →
        lookupPath c p = some v → (∀ es, v ≠ .obj es) →
        lookupPath out p = some v)) ∧
    (∀ rules level maxLevel,
      replaceByNonOverrideCfg none rules level maxLevel = none) ∧
    (∀ cfg level maxLevel,
      replaceByNonOverrideCfg cfg none level maxLevel = none) := by
  refine ⟨?_, ?_, ?_⟩
  · intro out hout
    simp only [replaceByNonOverrideCfg] at hout
    have hrep : out = sanitizeFuel r 4 c := (Option.some.inj hout).symm
    subst hrep
    refine ⟨protectedFreeUpto_sanitizeFuel r 4 c, ?_, ?_⟩
    · intro p hp
      exact lookupPath_sanitizeFuel r p 4 c hp
    · intro p v hp hv hnonobj
      rw [lookupPath_sanitizeFuel r p 4 c hp]
      by_cases hlen : p.length ≤ 4
      · rw [if_pos hlen, hv]
        simp only [Option.map_some']
        rw [sanitizeFuel_nonObj r _ v hnonobj]
      · rw [if_neg hlen, hv]
  · intro rules level maxLevel
    cases rules <;> rfl
  · intro cfg level maxLevel
    cases cfg <;> rfl

/-- Witness for C7: the engine-level merge of a config holding a protected
instrumentation key and a sample rate keeps only the sample rate, the
result is protected-free through level 5, and the unprotected leaf
survives verbatim. -/
theorem sanitize_spec_holds_witness :
    replaceByNonOverrideCfg
        (some (.obj [("instrumentationKey", .str "x"),
          ("sampleRate", .num 50)]))
        (some rdef) 1 5
      = some (.obj [("sampleRate", .num 50)]) ∧
    protectedFreeUpto rdef 5 (.obj [("sampleRate", .num 50)]) = true ∧
    lookupPath (.obj [("sampleRate", .num 50)]) ["sampleRate"]
      = some (.num 50) := by
  have h := (sanitize_spec_holds rdef
    (.obj [("instrumentationKey", .str "x"), ("sampleRate", .num 50)])).1
    (.obj [("sampleRate", .num 50)]) rfl
  refine ⟨rfl, h.1, ?_⟩
  exact h.2.2 ["sampleRate"] (.num 50) (by decide) rfl
    (fun es h2 => JsValue.noConfusion h2)

end CfgSync
